import Mathlib

/-!
Verification of the `sovafoundation/testnet-faucet` service (src/src/main.rs).

The service is a single-endpoint token faucet.  We give a shallow embedding of
its request handler `send_tokens`, its `/health` responder `health_check`, and
the startup logic of `main`, as pure Lean functions.  External effects (the
alloy chain client, the wallet signer, URL parsing) are passed in explicitly:
the chain client is a `ChainOracle`, a snapshot of the remote chain state and
remote behaviour during one request.  The handler result records, besides the
HTTP response, the ordered list of chain-client calls performed and the list
of transaction envelopes handed to `send_tx_envelope`, so that claims of the
form "performs no chain calls" or "submits exactly one transaction" are
statable.

Machine integers are embedded as `Nat`; `U256` arithmetic reduces modulo
`2 ^ 256` where the source computes in 256 bits.
-/

namespace Faucet

/-- The 256-bit unsigned integers (`alloy_primitives::U256`), embedded as `Nat`.
Values produced by the embedded code are kept below `2 ^ 256`; arithmetic that
the source performs in 256 bits is reduced modulo `2 ^ 256` explicitly. -/
abbrev U256 := Nat

/-- A 20-byte chain address (`alloy_primitives::Address`), embedded abstractly
as `Nat`.  The handler never inspects an address beyond passing it to the
chain client and placing it in the transaction. -/
abbrev Address := Nat

/-- A 32-byte transaction hash (`alloy_primitives::B256`), embedded as `Nat`. -/
abbrev TxHash := Nat

/-- The body of the `/faucet` POST request (`struct FaucetRequest`). -/
structure FaucetRequest where
  address : String
deriving Repr, DecidableEq

/-- The JSON body of an HTTP response.  `faucet` is the success body
(`struct FaucetResponse`, one field `transaction_hash`), `error` the failure
body (`struct ErrorResponse`, one field `error`), `health` the body of the
`/health` endpoint (`status` and `timestamp` fields). -/
inductive ResponseBody where
  | faucet (transaction_hash : String)
  | error (e : String)
  | health (status : String) (timestamp : String)
deriving Repr, DecidableEq

/-- Render a `ResponseBody` to the JSON text serde produces for the
corresponding Rust struct. -/
def renderBody : ResponseBody → String
  | ResponseBody.faucet h => "\x7b\"transaction_hash\":\"" ++ h ++ "\"\x7d"
  | ResponseBody.error e => "\x7b\"error\":\"" ++ e ++ "\"\x7d"
  | ResponseBody.health s t =>
      "\x7b\"status\":\"" ++ s ++ "\",\"timestamp\":\"" ++ t ++ "\"\x7d"

/-- An HTTP response: numeric status code and JSON body. -/
structure HttpResponse where
  status : Nat
  body : ResponseBody
deriving Repr, DecidableEq

/-- Embeds `HttpResponse::BadRequest().json(..)`. -/
def badRequest (b : ResponseBody) : HttpResponse := ⟨400, b⟩

/-- Embeds `HttpResponse::InternalServerError().json(..)`. -/
def internalServerError (b : ResponseBody) : HttpResponse := ⟨500, b⟩

/-- Embeds `HttpResponse::Ok().json(..)`. -/
def okResponse (b : ResponseBody) : HttpResponse := ⟨200, b⟩

/-- The transaction request the handler assembles (lines 141-149 of main.rs):
destination, nonce, value, gas limit, the two EIP-1559 fee fields, and the
chain id set afterwards by `set_chain_id`. -/
structure Tx where
  to_addr : Address
  nonce : Nat
  value : U256
  gas_limit : Nat
  max_fee_per_gas : Nat
  max_priority_fee_per_gas : Nat
  chain_id : Nat
deriving Repr, DecidableEq

/-- A signed transaction envelope (`TxEnvelope`): the transaction request it
was built from together with the wallet signature (embedded abstractly as a
`Nat` produced by the signer). -/
structure TxEnvelope where
  tx : Tx
  signature : Nat
deriving Repr, DecidableEq

/-- One call to the external chain client or wallet, recorded in order by the
embedded handler. -/
inductive ChainCall where
  | getBalance (addr : Address)
  | getTransactionCount (addr : Address)
  | getChainId
  | sign (tx : Tx)
  | sendTxEnvelope (env : TxEnvelope)
deriving Repr, DecidableEq

/-- The external chain client and wallet signer, as a snapshot of the remote
chain state and remote behaviour during one request.  Each field is the
outcome the corresponding remote call would produce: `Except.error e` is an
RPC (or signing) failure carrying the remote error text `e`. -/
structure ChainOracle where
  getBalance : Address → Except String U256
  getTransactionCount : Address → Except String Nat
  getChainId : Except String Nat
  sign : Tx → Except String Nat
  sendTxEnvelope : TxEnvelope → Except String TxHash

/-- Process-wide state (`struct AppState`): the operator wallet's default
signer address, and the static dispense parameters.  `wallet_address` embeds
`state.wallet.default_signer().address()`. -/
structure AppState where
  wallet_address : Address
  tokens_per_request : U256
  gas_price : U256
  gas_limit : U256
deriving Repr, DecidableEq

/-- What one run of the handler produced: the HTTP response, the ordered list
of external calls performed, and the envelopes handed to `send_tx_envelope`
(the submitted transactions). -/
structure HandlerResult where
  response : HttpResponse
  calls : List ChainCall
  submitted : List TxEnvelope
deriving Repr, DecidableEq

/-- Hex digit characters for lowercase hex rendering. -/
def hexDigitChar (n : Nat) : Char :=
  if n < 10 then Char.ofNat (48 + n) else Char.ofNat (87 + n % 16)

/-- The `Debug` rendering of a `B256` transaction hash: `0x` followed by 64
lowercase hex digits, most significant first. -/
def formatB256 (h : TxHash) : String :=
  "0x" ++ String.mk ((List.range 64).map (fun i => hexDigitChar (h / 16 ^ (63 - i) % 16)))

/-- The request handler (`send_tokens`, main.rs lines 78-178), embedded as a
pure function of the app state, the chain oracle, the external checksummed
address parser (`Address::parse_checksummed`, `none` on any malformed input),
and the request body.  Match arms follow the source's early returns in
order.  The source's `U256` narrowing conversions `gas_limit.to::<u64>()` and
`gas_price.to::<u128>()` are embedded as the identity: they panic when the
value is out of range, and every state built by `runMain` keeps both in range
(see `runMain_gas_in_range`). -/
def send_tokens (state : AppState) (oracle : ChainOracle)
    (parse_checksummed : String → Option Address) (data : FaucetRequest) :
    HandlerResult :=
  match parse_checksummed data.address with
  | none =>
      ⟨badRequest (ResponseBody.error "Invalid address"), [], []⟩
  | some to_address =>
    let from_address := state.wallet_address
    match oracle.getBalance from_address with
    | Except.error e =>
        ⟨internalServerError (ResponseBody.error ("Failed to get balance: " ++ e)),
         [ChainCall.getBalance from_address], []⟩
    | Except.ok sender_balance =>
      if sender_balance < state.tokens_per_request then
        ⟨badRequest (ResponseBody.error "Insufficient balance"),
         [ChainCall.getBalance from_address], []⟩
      else
        match oracle.getBalance to_address with
        | Except.error e =>
            ⟨internalServerError (ResponseBody.error ("Failed to get balance: " ++ e)),
             [ChainCall.getBalance from_address, ChainCall.getBalance to_address], []⟩
        | Except.ok receiver_balance =>
          if receiver_balance > 0 then
            ⟨badRequest (ResponseBody.error "Receiver already has a balance greater than 0"),
             [ChainCall.getBalance from_address, ChainCall.getBalance to_address], []⟩
          else
            match oracle.getTransactionCount from_address with
            | Except.error e =>
                ⟨internalServerError (ResponseBody.error ("Failed to get nonce: " ++ e)),
                 [ChainCall.getBalance from_address, ChainCall.getBalance to_address,
                  ChainCall.getTransactionCount from_address], []⟩
            | Except.ok nonce =>
              match oracle.getChainId with
              | Except.error e =>
                  ⟨internalServerError (ResponseBody.error ("Failed to get chain ID: " ++ e)),
                   [ChainCall.getBalance from_address, ChainCall.getBalance to_address,
                    ChainCall.getTransactionCount from_address, ChainCall.getChainId], []⟩
              | Except.ok chain_id =>
                let tx : Tx :=
                  { to_addr := to_address
                    nonce := nonce
                    value := state.tokens_per_request
                    gas_limit := state.gas_limit
                    max_fee_per_gas := state.gas_price
                    max_priority_fee_per_gas := state.gas_price
                    chain_id := chain_id }
                match oracle.sign tx with
                | Except.error e =>
                    ⟨internalServerError
                       (ResponseBody.error ("Failed to build transaction: " ++ e)),
                     [ChainCall.getBalance from_address, ChainCall.getBalance to_address,
                      ChainCall.getTransactionCount from_address, ChainCall.getChainId,
                      ChainCall.sign tx], []⟩
                | Except.ok signature =>
                  let env : TxEnvelope := ⟨tx, signature⟩
                  match oracle.sendTxEnvelope env with
                  | Except.ok receipt_hash =>
                      ⟨okResponse (ResponseBody.faucet (formatB256 receipt_hash)),
                       [ChainCall.getBalance from_address, ChainCall.getBalance to_address,
                        ChainCall.getTransactionCount from_address, ChainCall.getChainId,
                        ChainCall.sign tx, ChainCall.sendTxEnvelope env], [env]⟩
                  | Except.error e =>
                      ⟨internalServerError
                         (ResponseBody.error ("Failed to send transaction: " ++ e)),
                       [ChainCall.getBalance from_address, ChainCall.getBalance to_address,
                        ChainCall.getTransactionCount from_address, ChainCall.getChainId,
                        ChainCall.sign tx, ChainCall.sendTxEnvelope env], [env]⟩

/-! ## The `/health` responder

`health_check` (main.rs lines 180-185) serializes a fixed JSON object with a
`"healthy"` status and the current UTC time rendered by chrono's
`to_rfc3339`.  Chrono is an external library; the timestamp rendering below
is modelled from the spec. -/

/-- A UTC wall-clock instant, the data chrono's `Utc::now()` delivers to the
RFC3339 renderer (fractional seconds omitted). -/
structure UtcTime where
  year : Nat
  month : Nat
  day : Nat
  hour : Nat
  minute : Nat
  second : Nat
deriving Repr, DecidableEq

/-- The decimal digit character for `n % 10`. -/
def digitChar (n : Nat) : Char := Char.ofNat (48 + n % 10)

/-- Two-digit zero-padded decimal rendering (for values below 100). -/
def pad2 (n : Nat) : List Char := [digitChar (n / 10), digitChar n]

/-- Four-digit zero-padded decimal rendering (for values below 10000). -/
def pad4 (n : Nat) : List Char :=
  [digitChar (n / 1000), digitChar (n / 100), digitChar (n / 10), digitChar n]

/-- Modelled from the spec: chrono's `DateTime::to_rfc3339` for a UTC time,
the "RFC3339 string" of the spec's `/health` row — `YYYY-MM-DDTHH:MM:SS+00:00`
(chrono is an external collaborator, not part of src/). -/
def to_rfc3339 (t : UtcTime) : String :=
  String.mk (pad4 t.year ++ '-' :: pad2 t.month ++ '-' :: pad2 t.day ++
    'T' :: pad2 t.hour ++ ':' :: pad2 t.minute ++ ':' :: pad2 t.second ++
    ['+', '0', '0', ':', '0', '0'])

/-- Decides whether a character is an ASCII decimal digit. -/
def isDigitChar (c : Char) : Bool := 48 ≤ c.toNat && c.toNat ≤ 57

/-- Decides whether a string has the RFC3339 UTC date-time shape
`YYYY-MM-DDTHH:MM:SS+00:00`. -/
def isRFC3339 (s : String) : Bool :=
  match s.data with
  | y1 :: y2 :: y3 :: y4 :: c1 :: m1 :: m2 :: c2 :: d1 :: d2 :: ct ::
    h1 :: h2 :: c3 :: n1 :: n2 :: c4 :: s1 :: s2 :: rest =>
      isDigitChar y1 && isDigitChar y2 && isDigitChar y3 && isDigitChar y4 &&
      (c1 == '-') && isDigitChar m1 && isDigitChar m2 && (c2 == '-') &&
      isDigitChar d1 && isDigitChar d2 && (ct == 'T') &&
      isDigitChar h1 && isDigitChar h2 && (c3 == ':') &&
      isDigitChar n1 && isDigitChar n2 && (c4 == ':') &&
      isDigitChar s1 && isDigitChar s2 &&
      (rest == ['+', '0', '0', ':', '0', '0'])
  | _ => false

/-- The `/health` handler (`health_check`, main.rs lines 180-185): a pure
function of the current UTC time only — it takes no `ChainOracle` and has a
single, unconditional branch. -/
def health_check (now : UtcTime) : HttpResponse :=
  okResponse (ResponseBody.health "healthy" (to_rfc3339 now))

/-! ## Startup (`main`, lines 187-231)

The startup sequence strips an optional `0x` prefix from the private key,
hex-decodes it, requires exactly 32 bytes, loads the signer, parses the RPC
URL, parses the dispense amount as a decimal `U256`, converts the gas price
from gwei to wei, and builds the `AppState`.  Every failure aborts the
process with a non-zero exit (either an `Err` return from `main` or a panic
from `expect`), both embedded as `Except.error`. -/

/-- The command-line arguments (`struct Args`).  `gas_price_gwei` and
`gas_limit` are `u64` in the source, so values below `2 ^ 64`. -/
structure Args where
  rpc_url : String
  private_key : String
  tokens_per_request : String
  port : Nat
  host : String
  gas_price_gwei : Nat
  gas_limit : Nat
deriving Repr, DecidableEq

/-- The value of a hex digit character (`0-9`, `a-f`, `A-F`), as accepted by
the `hex` crate. -/
def hexDigitVal (c : Char) : Option Nat :=
  if 48 ≤ c.toNat ∧ c.toNat ≤ 57 then some (c.toNat - 48)
  else if 97 ≤ c.toNat ∧ c.toNat ≤ 102 then some (c.toNat - 87)
  else if 65 ≤ c.toNat ∧ c.toNat ≤ 70 then some (c.toNat - 55)
  else none

/-- Hex decoding of a character list: two hex digits per byte, failing on an
odd-length input or a non-hex character (the `hex::decode` behaviour). -/
def hexDecodeChars : List Char → Option (List Nat)
  | [] => some []
  | [_] => none
  | c1 :: c2 :: rest =>
    match hexDigitVal c1, hexDigitVal c2, hexDecodeChars rest with
    | some hi, some lo, some bs => some ((16 * hi + lo) :: bs)
    | _, _, _ => none

/-- Embeds `hex::decode`: the byte list, or `none` on malformed input. -/
def hexDecode (s : String) : Option (List Nat) := hexDecodeChars s.data

/-- Embeds `args.private_key.strip_prefix("0x").unwrap_or(&args.private_key)`
(main.rs line 196). -/
def strip0x (s : String) : String :=
  if s.startsWith "0x" then s.drop 2 else s

/-- The value of a decimal digit character. -/
def decDigitVal (c : Char) : Option Nat :=
  if 48 ≤ c.toNat ∧ c.toNat ≤ 57 then some (c.toNat - 48) else none

/-- Left-fold decimal evaluation of a digit string; `none` on a non-digit. -/
def decValGo (acc : Nat) : List Char → Option Nat
  | [] => some acc
  | c :: cs =>
    match decDigitVal c with
    | some d => decValGo (10 * acc + d) cs
    | none => none

/-- Embeds `U256::from_str_radix(s, 10)`: a non-empty all-decimal string whose
value fits in 256 bits; `none` (an `Err` in the source) otherwise. -/
def from_str_radix_10 (s : String) : Option U256 :=
  if s.data.isEmpty then none
  else
    match decValGo 0 s.data with
    | none => none
    | some v => if v < 2 ^ 256 then some v else none

/-- Embeds the gwei-to-wei conversion of main.rs line 221:
`U256::from(gas_price_gwei) * U256::from(1_000_000_000)`, a multiplication
carried out in 256-bit arithmetic. -/
def gweiToWei (gas_price_gwei : Nat) : U256 :=
  gas_price_gwei * 1000000000 % 2 ^ 256

/-- The external collaborators `main` relies on: the secp256k1 signer loader
(`PrivateKeySigner::from_bytes` followed by `EthereumWallet::from`, returning
the wallet's default signer address, or `none` for an invalid key) and the
RPC URL parser (`args.rpc_url.parse()`, `true` on success). -/
structure StartupExternals where
  signer_from_bytes : List Nat → Option Address
  parse_url : String → Bool

/-- The startup logic of `main` (main.rs lines 190-231) up to the `AppState`
it hands the HTTP server: each early `Err` return or `expect` panic is an
`Except.error`, in source order — hex decode, 32-byte length check, signer
load, URL parse, dispense-amount parse.  An `Except.error` result models a
non-zero process exit before the server ever starts serving. -/
def runMain (ext : StartupExternals) (args : Args) : Except String AppState :=
  let pk := strip0x args.private_key
  match hexDecode pk with
  | none => Except.error "invalid private key hex"
  | some private_key_bytes =>
    if private_key_bytes.length = 32 then
      match ext.signer_from_bytes private_key_bytes with
      | none => Except.error "invalid private key signer"
      | some wallet_address =>
        if ext.parse_url args.rpc_url then
          match from_str_radix_10 args.tokens_per_request with
          | none => Except.error "Invalid tokens_per_request value"
          | some tokens_per_request =>
              Except.ok
                { wallet_address := wallet_address
                  tokens_per_request := tokens_per_request
                  gas_price := gweiToWei args.gas_price_gwei
                  gas_limit := args.gas_limit }
        else Except.error "should parse rpc url"
    else Except.error "Invalid private key length"

/-! ## Concrete instances

Closed sample states, oracles and arguments, used to evaluate the embedded
handlers on concrete inputs. -/

/-- A sample app state: operator address `1001`, the default dispense amount
of one token (`10^18` wei), 1 gwei gas price, 21000 gas. -/
def exState : AppState :=
  { wallet_address := 1001
    tokens_per_request := 1000000000000000000
    gas_price := 1000000000
    gas_limit := 21000 }

/-- A sample checksummed-address parser: accepts exactly the string
`"valid"`, as address `7`. -/
def exParse : String → Option Address :=
  fun s => if s = "valid" then some 7 else none

/-- A sample parser resolving `"valid"` to the operator's own address. -/
def exParseSelf : String → Option Address :=
  fun s => if s = "valid" then some 1001 else none

/-- A fully successful oracle: operator balance 2 tokens, every other balance
zero, nonce 5, chain id 120893, signing succeeds, submission succeeds. -/
def exOracleOk : ChainOracle :=
  { getBalance := fun a =>
      if a = 1001 then Except.ok 2000000000000000000 else Except.ok 0
    getTransactionCount := fun _ => Except.ok 5
    getChainId := Except.ok 120893
    sign := fun _ => Except.ok 42
    sendTxEnvelope := fun _ => Except.ok 99 }

/-- An oracle where every non-operator account already holds 5 wei. -/
def exOracleFunded : ChainOracle :=
  { getBalance := fun a =>
      if a = 1001 then Except.ok 2000000000000000000 else Except.ok 5
    getTransactionCount := fun _ => Except.ok 5
    getChainId := Except.ok 120893
    sign := fun _ => Except.ok 42
    sendTxEnvelope := fun _ => Except.ok 99 }

/-- An oracle where every account, the operator included, has balance 0. -/
def exOracleBroke : ChainOracle :=
  { getBalance := fun _ => Except.ok 0
    getTransactionCount := fun _ => Except.ok 5
    getChainId := Except.ok 120893
    sign := fun _ => Except.ok 42
    sendTxEnvelope := fun _ => Except.ok 99 }

/-- An oracle whose balance RPC always fails. -/
def exOracleBalErr : ChainOracle :=
  { getBalance := fun _ => Except.error "connection refused"
    getTransactionCount := fun _ => Except.ok 5
    getChainId := Except.ok 120893
    sign := fun _ => Except.ok 42
    sendTxEnvelope := fun _ => Except.ok 99 }

/-- An oracle where only the recipient's balance lookup fails. -/
def exOracleRecvErr : ChainOracle :=
  { getBalance := fun a =>
      if a = 1001 then Except.ok 2000000000000000000
      else Except.error "timeout"
    getTransactionCount := fun _ => Except.ok 5
    getChainId := Except.ok 120893
    sign := fun _ => Except.ok 42
    sendTxEnvelope := fun _ => Except.ok 99 }

/-- Sample startup externals whose URL parser rejects every string. -/
def exExternalsBadUrl : StartupExternals :=
  { signer_from_bytes := fun _ => some 1001
    parse_url := fun _ => false }

/-- Sample command-line arguments with an unparsable RPC URL. -/
def exArgs : Args :=
  { rpc_url := "not a url"
    private_key := "0x0000000000000000000000000000000000000000000000000000000000000001"
    tokens_per_request := "1000000000000000000"
    port := 5556
    host := "127.0.0.1"
    gas_price_gwei := 1
    gas_limit := 21000 }

/-! ## Theorems -/

/-- Every character `digitChar` produces is an ASCII decimal digit. -/
theorem isDigitChar_ofNat (k : Nat) (h : k < 10) :
    isDigitChar (Char.ofNat (48 + k)) = true := by
  interval_cases k <;> decide

/-- The rendered digit of any `Nat` is a digit character. -/
theorem isDigitChar_digitChar (n : Nat) : isDigitChar (digitChar n) = true := by
  unfold digitChar
  exact isDigitChar_ofNat (n % 10) (Nat.mod_lt _ (by norm_num))

/-- C4: a request whose address string fails checksummed parsing gets a 400
response with body `{"error":"Invalid address"}`, with no chain-client call
performed and no transaction submitted. -/
theorem send_tokens_invalid_address (state : AppState) (oracle : ChainOracle)
    (parse_checksummed : String → Option Address) (data : FaucetRequest)
    (h : parse_checksummed data.address = none) :
    send_tokens state oracle parse_checksummed data =
      ⟨⟨400, ResponseBody.error "Invalid address"⟩, [], []⟩ ∧
    renderBody (send_tokens state oracle parse_checksummed data).response.body =
      "\x7b\"error\":\"Invalid address\"\x7d" := by
  simp only [send_tokens, h]
  exact ⟨rfl, rfl⟩

/-- C4 witness: the sample parser rejects `"bogus"`; the handler returns the
400 `Invalid address` response with empty call and submission lists. -/
theorem send_tokens_invalid_address_witness :
    send_tokens exState exOracleOk exParse ⟨"bogus"⟩ =
      ⟨⟨400, ResponseBody.error "Invalid address"⟩, [], []⟩ ∧
    renderBody (send_tokens exState exOracleOk exParse ⟨"bogus"⟩).response.body =
      "\x7b\"error\":\"Invalid address\"\x7d" :=
  send_tokens_invalid_address exState exOracleOk exParse ⟨"bogus"⟩ (by decide)

/-- C3: with a valid recipient and an operator balance strictly below the
dispense amount, the handler returns 400 `{"error":"Insufficient balance"}`,
submits nothing, and the only chain call performed is the operator-balance
lookup — the recipient's balance is never consulted. -/
theorem send_tokens_insufficient_balance (state : AppState) (oracle : ChainOracle)
    (parse_checksummed : String → Option Address) (data : FaucetRequest)
    (to_address : Address) (sender_balance : U256)
    (hp : parse_checksummed data.address = some to_address)
    (hb : oracle.getBalance state.wallet_address = Except.ok sender_balance)
    (hlt : sender_balance < state.tokens_per_request) :
    send_tokens state oracle parse_checksummed data =
      ⟨⟨400, ResponseBody.error "Insufficient balance"⟩,
       [ChainCall.getBalance state.wallet_address], []⟩ ∧
    renderBody (send_tokens state oracle parse_checksummed data).response.body =
      "\x7b\"error\":\"Insufficient balance\"\x7d" := by
  simp only [send_tokens, hp, hb]
  simp [hlt, badRequest, renderBody]

/-- C3 witness: operator balance 0 against a 10^18 dispense amount yields the
400 `Insufficient balance` response after exactly one balance lookup. -/
theorem send_tokens_insufficient_balance_witness :
    send_tokens exState exOracleBroke exParse ⟨"valid"⟩ =
      ⟨⟨400, ResponseBody.error "Insufficient balance"⟩,
       [ChainCall.getBalance 1001], []⟩ ∧
    renderBody (send_tokens exState exOracleBroke exParse ⟨"valid"⟩).response.body =
      "\x7b\"error\":\"Insufficient balance\"\x7d" :=
  send_tokens_insufficient_balance exState exOracleBroke exParse ⟨"valid"⟩ 7 0
    (by decide) rfl (by decide)

/-- C2: with a valid recipient and a sufficient operator balance, a recipient
whose reported balance is strictly positive gets the 400 response
`{"error":"Receiver already has a balance greater than 0"}` with no
transaction submitted, while a recipient with balance exactly zero passes the
check (the handler goes on to the nonce query). -/
theorem send_tokens_already_funded (state : AppState) (oracle : ChainOracle)
    (parse_checksummed : String → Option Address) (data : FaucetRequest)
    (to_address : Address) (sender_balance receiver_balance : U256)
    (hp : parse_checksummed data.address = some to_address)
    (hb : oracle.getBalance state.wallet_address = Except.ok sender_balance)
    (hsuff : ¬ sender_balance < state.tokens_per_request)
    (hr : oracle.getBalance to_address = Except.ok receiver_balance) :
    (0 < receiver_balance →
      send_tokens state oracle parse_checksummed data =
        ⟨⟨400, ResponseBody.error "Receiver already has a balance greater than 0"⟩,
         [ChainCall.getBalance state.wallet_address, ChainCall.getBalance to_address],
         []⟩ ∧
      renderBody (send_tokens state oracle parse_checksummed data).response.body =
        "\x7b\"error\":\"Receiver already has a balance greater than 0\"\x7d") ∧
    (receiver_balance = 0 →
      ChainCall.getTransactionCount state.wallet_address ∈
        (send_tokens state oracle parse_checksummed data).calls) := by
  constructor
  · intro hpos
    simp only [send_tokens, hp, hb, hr]
    simp [hsuff, hpos, badRequest, renderBody]
  · intro hzero
    subst hzero
    simp only [send_tokens, hp, hb, hr]
    simp only [hsuff, if_false, ite_false, gt_iff_lt, lt_self_iff_false]
    repeat' split
    all_goals simp

/-- C2 witness: recipient balance 5 yields the 400 already-funded response,
and recipient balance 0 leads the handler on to the nonce lookup. -/
theorem send_tokens_already_funded_witness :
    ((0 < 5 →
      send_tokens exState exOracleFunded exParse ⟨"valid"⟩ =
        ⟨⟨400, ResponseBody.error "Receiver already has a balance greater than 0"⟩,
         [ChainCall.getBalance 1001, ChainCall.getBalance 7], []⟩ ∧
      renderBody (send_tokens exState exOracleFunded exParse ⟨"valid"⟩).response.body =
        "\x7b\"error\":\"Receiver already has a balance greater than 0\"\x7d") ∧
    ((5 : U256) = 0 →
      ChainCall.getTransactionCount 1001 ∈
        (send_tokens exState exOracleFunded exParse ⟨"valid"⟩).calls)) :=
  send_tokens_already_funded exState exOracleFunded exParse ⟨"valid"⟩ 7
    2000000000000000000 5 (by decide) rfl (by decide) rfl

/-- C9: when the parsed recipient is the operator's own address, the dispense
amount is positive and the operator's reported balance covers it, the handler
always rejects with the 400 already-funded response: the operator's own
nonzero balance fails the zero-balance eligibility check. -/
theorem send_tokens_self_dispense_rejected (state : AppState) (oracle : ChainOracle)
    (parse_checksummed : String → Option Address) (data : FaucetRequest)
    (sender_balance : U256)
    (hp : parse_checksummed data.address = some state.wallet_address)
    (hpos : 0 < state.tokens_per_request)
    (hb : oracle.getBalance state.wallet_address = Except.ok sender_balance)
    (hge : state.tokens_per_request ≤ sender_balance) :
    send_tokens state oracle parse_checksummed data =
      ⟨⟨400, ResponseBody.error "Receiver already has a balance greater than 0"⟩,
       [ChainCall.getBalance state.wallet_address,
        ChainCall.getBalance state.wallet_address], []⟩ := by
  have hsuff : ¬ sender_balance < state.tokens_per_request := Nat.not_lt.mpr hge
  have hposb : 0 < sender_balance := Nat.lt_of_lt_of_le hpos hge
  simp only [send_tokens, hp, hb]
  simp [hsuff, hposb, badRequest]

/-- C9 witness: asking the faucet to fund its own operator address (balance 2
tokens, dispense amount 1 token) yields the 400 already-funded response. -/
theorem send_tokens_self_dispense_rejected_witness :
    send_tokens exState exOracleOk exParseSelf ⟨"valid"⟩ =
      ⟨⟨400, ResponseBody.error "Receiver already has a balance greater than 0"⟩,
       [ChainCall.getBalance 1001, ChainCall.getBalance 1001], []⟩ :=
  send_tokens_self_dispense_rejected exState exOracleOk exParseSelf ⟨"valid"⟩
    2000000000000000000 (by decide) (by decide) rfl (by decide)

/-- C10: an operator-balance lookup failure and a recipient-balance lookup
failure produce 500 messages with the identical prefix
`Failed to get balance: `, so the response does not reveal which of the two
lookups failed. -/
theorem balance_error_uniform_prefix
    (state₁ state₂ : AppState) (oracle₁ oracle₂ : ChainOracle)
    (parse₁ parse₂ : String → Option Address) (data₁ data₂ : FaucetRequest)
    (to₁ to₂ : Address) (e₁ e₂ : String) (sb : U256)
    (h1p : parse₁ data₁.address = some to₁)
    (h1 : oracle₁.getBalance state₁.wallet_address = Except.error e₁)
    (h2p : parse₂ data₂.address = some to₂)
    (h2b : oracle₂.getBalance state₂.wallet_address = Except.ok sb)
    (h2suff : ¬ sb < state₂.tokens_per_request)
    (h2 : oracle₂.getBalance to₂ = Except.error e₂) :
    (send_tokens state₁ oracle₁ parse₁ data₁).response =
      ⟨500, ResponseBody.error ("Failed to get balance: " ++ e₁)⟩ ∧
    (send_tokens state₂ oracle₂ parse₂ data₂).response =
      ⟨500, ResponseBody.error ("Failed to get balance: " ++ e₂)⟩ := by
  constructor
  · simp only [send_tokens, h1p, h1]
    rfl
  · simp only [send_tokens, h2p, h2b, h2]
    simp [h2suff, internalServerError]

/-- C10 witness: a failing operator lookup and a failing recipient lookup
both answer 500 with the `Failed to get balance: ` prefix. -/
theorem balance_error_uniform_prefix_witness :
    (send_tokens exState exOracleBalErr exParse ⟨"valid"⟩).response =
      ⟨500, ResponseBody.error ("Failed to get balance: " ++ "connection refused")⟩ ∧
    (send_tokens exState exOracleRecvErr exParse ⟨"valid"⟩).response =
      ⟨500, ResponseBody.error ("Failed to get balance: " ++ "timeout")⟩ :=
  balance_error_uniform_prefix exState exState exOracleBalErr exOracleRecvErr
    exParse exParse ⟨"valid"⟩ ⟨"valid"⟩ 7 7 "connection refused" "timeout"
    2000000000000000000 (by decide) rfl (by decide) rfl (by decide) rfl

/-- C1: on full success the handler submits exactly one envelope, whose
transaction has destination the parsed recipient, value the configured
dispense amount, gas limit the configured constant, both fee fields the
configured gas price, and nonce and chain id from the live queries; the 200
response carries the hash the submission returned. -/
theorem send_tokens_success (state : AppState) (oracle : ChainOracle)
    (parse_checksummed : String → Option Address) (data : FaucetRequest)
    (to_address : Address)
    (sender_balance receiver_balance nonce chain_id signature receipt_hash : Nat)
    (hp : parse_checksummed data.address = some to_address)
    (hb : oracle.getBalance state.wallet_address = Except.ok sender_balance)
    (hsuff : ¬ sender_balance < state.tokens_per_request)
    (hr : oracle.getBalance to_address = Except.ok receiver_balance)
    (hzero : ¬ 0 < receiver_balance)
    (hn : oracle.getTransactionCount state.wallet_address = Except.ok nonce)
    (hc : oracle.getChainId = Except.ok chain_id)
    (hsig : oracle.sign
        ⟨to_address, nonce, state.tokens_per_request, state.gas_limit,
         state.gas_price, state.gas_price, chain_id⟩ = Except.ok signature)
    (hsend : oracle.sendTxEnvelope
        ⟨⟨to_address, nonce, state.tokens_per_request, state.gas_limit,
          state.gas_price, state.gas_price, chain_id⟩, signature⟩ =
        Except.ok receipt_hash) :
    send_tokens state oracle parse_checksummed data =
      ⟨⟨200, ResponseBody.faucet (formatB256 receipt_hash)⟩,
       [ChainCall.getBalance state.wallet_address, ChainCall.getBalance to_address,
        ChainCall.getTransactionCount state.wallet_address, ChainCall.getChainId,
        ChainCall.sign
          ⟨to_address, nonce, state.tokens_per_request, state.gas_limit,
           state.gas_price, state.gas_price, chain_id⟩,
        ChainCall.sendTxEnvelope
          ⟨⟨to_address, nonce, state.tokens_per_request, state.gas_limit,
            state.gas_price, state.gas_price, chain_id⟩, signature⟩],
       [⟨⟨to_address, nonce, state.tokens_per_request, state.gas_limit,
          state.gas_price, state.gas_price, chain_id⟩, signature⟩]⟩ := by
  simp only [send_tokens, hp, hb, hr, hn, hc]
  simp [hsuff, hzero, hsig, hsend, okResponse]

/-- C1 witness: with the all-success oracle, the handler submits exactly the
expected envelope and returns 200 with the hash of that submission. -/
theorem send_tokens_success_witness :
    send_tokens exState exOracleOk exParse ⟨"valid"⟩ =
      ⟨⟨200, ResponseBody.faucet (formatB256 99)⟩,
       [ChainCall.getBalance 1001, ChainCall.getBalance 7,
        ChainCall.getTransactionCount 1001, ChainCall.getChainId,
        ChainCall.sign
          ⟨7, 5, 1000000000000000000, 21000, 1000000000, 1000000000, 120893⟩,
        ChainCall.sendTxEnvelope
          ⟨⟨7, 5, 1000000000000000000, 21000, 1000000000, 1000000000, 120893⟩, 42⟩],
       [⟨⟨7, 5, 1000000000000000000, 21000, 1000000000, 1000000000, 120893⟩, 42⟩]⟩ :=
  send_tokens_success exState exOracleOk exParse ⟨"valid"⟩ 7
    2000000000000000000 0 5 120893 42 99
    (by decide) rfl (by decide) rfl (by decide) rfl rfl rfl rfl

/-- C6: `/health` answers 200 with status `"healthy"` and an RFC3339-shaped
timestamp, for every instant; it takes no chain oracle, so the response is
independent of chain-client availability, and it has no failure branch. -/
theorem health_check_always_healthy (now : UtcTime) :
    health_check now =
      ⟨200, ResponseBody.health "healthy" (to_rfc3339 now)⟩ ∧
    isRFC3339 (to_rfc3339 now) = true := by
  refine ⟨rfl, ?_⟩
  simp [to_rfc3339, isRFC3339, pad4, pad2, isDigitChar_digitChar]

/-- C7: the gwei-to-wei conversion multiplies by exactly `10^9`, and for any
gwei value below `2^64` the 256-bit product does not wrap. -/
theorem gweiToWei_no_overflow (gas_price_gwei : Nat) (h : gas_price_gwei < 2 ^ 64) :
    gweiToWei gas_price_gwei = gas_price_gwei * 1000000000 ∧
    gas_price_gwei * 1000000000 < 2 ^ 256 := by
  have hb : gas_price_gwei * 1000000000 < 2 ^ 256 := by
    calc gas_price_gwei * 1000000000 < 2 ^ 64 * 1000000000 :=
          Nat.mul_lt_mul_of_lt_of_le h (Nat.le_refl _) (by norm_num)
      _ < 2 ^ 256 := by norm_num
  exact ⟨Nat.mod_eq_of_lt hb, hb⟩

/-- C7 witness: the largest u64 gwei value converts without overflow. -/
theorem gweiToWei_no_overflow_witness :
    2 ^ 64 - 1 < 2 ^ 64 ∧
    (gweiToWei (2 ^ 64 - 1) = (2 ^ 64 - 1) * 1000000000 ∧
     (2 ^ 64 - 1) * 1000000000 < 2 ^ 256) :=
  ⟨by norm_num, gweiToWei_no_overflow (2 ^ 64 - 1) (by norm_num)⟩

/-- Inversion for startup: a successful `runMain` means every startup check
succeeded — the key hex-decoded to 32 bytes, the signer loaded, the URL
parsed, the dispense amount parsed — and characterizes the resulting state's
fields. -/
theorem runMain_ok_inversion (ext : StartupExternals) (args : Args) (st : AppState)
    (hr : runMain ext args = Except.ok st) :
    ∃ bs, hexDecode (strip0x args.private_key) = some bs ∧ bs.length = 32 ∧
      (∃ a, ext.signer_from_bytes bs = some a ∧ st.wallet_address = a) ∧
      ext.parse_url args.rpc_url = true ∧
      (∃ v, from_str_radix_10 args.tokens_per_request = some v ∧
        st.tokens_per_request = v) ∧
      st.gas_price = gweiToWei args.gas_price_gwei ∧
      st.gas_limit = args.gas_limit := by
  cases hbs : hexDecode (strip0x args.private_key) with
  | none => simp [runMain, hbs] at hr
  | some bs =>
    by_cases hlen : bs.length = 32
    · cases hsig : ext.signer_from_bytes bs with
      | none => simp [runMain, hbs, hlen, hsig] at hr
      | some a =>
        by_cases hurl : ext.parse_url args.rpc_url = true
        · cases hv : from_str_radix_10 args.tokens_per_request with
          | none => simp [runMain, hbs, hlen, hsig, hurl, hv] at hr
          | some v =>
            have hst : st =
                { wallet_address := a, tokens_per_request := v,
                  gas_price := gweiToWei args.gas_price_gwei,
                  gas_limit := args.gas_limit } := by
              simp [runMain, hbs, hlen, hsig, hurl, hv] at hr
              exact hr.symm
            subst hst
            exact ⟨bs, rfl, hlen, ⟨a, hsig, rfl⟩, hurl, ⟨v, rfl, rfl⟩, rfl, rfl⟩
        · simp [runMain, hbs, hlen, hsig, hurl] at hr
    · simp [runMain, hbs, hlen] at hr

/-- States built by startup keep the gas fields inside the source's `u64` and
`u128` narrowing ranges, so the handler's `to::<u64>()` and `to::<u128>()`
conversions never panic. -/
theorem runMain_gas_in_range (ext : StartupExternals) (args : Args) (st : AppState)
    (hgwei : args.gas_price_gwei < 2 ^ 64) (hlim : args.gas_limit < 2 ^ 64)
    (hr : runMain ext args = Except.ok st) :
    st.gas_limit < 2 ^ 64 ∧ st.gas_price < 2 ^ 128 := by
  obtain ⟨bs, hbs, hlen, ⟨a, hsig, hwa⟩, hurl, ⟨v, hv, htok⟩, hgp, hgl⟩ :=
    runMain_ok_inversion ext args st hr
  refine ⟨hgl ▸ hlim, ?_⟩
  rw [hgp, (gweiToWei_no_overflow args.gas_price_gwei hgwei).1]
  calc args.gas_price_gwei * 1000000000 < 2 ^ 64 * 1000000000 :=
        Nat.mul_lt_mul_of_lt_of_le hgwei (Nat.le_refl _) (by norm_num)
    _ < 2 ^ 128 := by norm_num

/-- C8: startup fails fast — if the private key does not hex-decode, decodes
to a length other than 32 bytes, or is rejected by the signer loader, or the
RPC URL does not parse, or the dispense-amount string does not parse as an
unsigned 256-bit integer, `runMain` ends in `Except.error`: the process exits
non-zero before serving. -/
theorem runMain_fail_fast (ext : StartupExternals) (args : Args)
    (h : hexDecode (strip0x args.private_key) = none ∨
      (∃ bs, hexDecode (strip0x args.private_key) = some bs ∧ bs.length ≠ 32) ∨
      (∃ bs, hexDecode (strip0x args.private_key) = some bs ∧
        ext.signer_from_bytes bs = none) ∨
      ext.parse_url args.rpc_url = false ∨
      from_str_radix_10 args.tokens_per_request = none) :
    ∃ e, runMain ext args = Except.error e := by
  cases hr : runMain ext args with
  | error e => exact ⟨e, rfl⟩
  | ok st =>
    exfalso
    obtain ⟨bs, hbs, hlen, ⟨a, ha, _⟩, hurl, ⟨v, hv, _⟩, _, _⟩ :=
      runMain_ok_inversion ext args st hr
    rcases h with h | ⟨bs2, hbs2, h⟩ | ⟨bs2, hbs2, h⟩ | h | h
    · rw [hbs] at h; exact Option.noConfusion h
    · rw [hbs] at hbs2; cases hbs2; exact h hlen
    · rw [hbs] at hbs2; cases hbs2; rw [ha] at h; exact Option.noConfusion h
    · rw [hurl] at h; exact Bool.noConfusion h
    · rw [hv] at h; exact Option.noConfusion h

/-- C5: every chain-state query failure (operator balance, recipient balance,
nonce, chain id) yields a 500 response whose message appends the remote error
text to a fixed prefix, with no transaction submitted; signing and submission
failures also yield 500; and every 400 response carries one of the three
client-caused bodies (invalid address, insufficient balance, already
funded). -/
theorem send_tokens_error_taxonomy (state : AppState) (oracle : ChainOracle)
    (parse_checksummed : String → Option Address) (data : FaucetRequest) :
    (∀ to_address e, parse_checksummed data.address = some to_address →
      oracle.getBalance state.wallet_address = Except.error e →
      (send_tokens state oracle parse_checksummed data).response =
        ⟨500, ResponseBody.error ("Failed to get balance: " ++ e)⟩ ∧
      (send_tokens state oracle parse_checksummed data).submitted = []) ∧
    (∀ to_address sb e, parse_checksummed data.address = some to_address →
      oracle.getBalance state.wallet_address = Except.ok sb →
      ¬ sb < state.tokens_per_request →
      oracle.getBalance to_address = Except.error e →
      (send_tokens state oracle parse_checksummed data).response =
        ⟨500, ResponseBody.error ("Failed to get balance: " ++ e)⟩ ∧
      (send_tokens state oracle parse_checksummed data).submitted = []) ∧
    (∀ to_address sb rb e, parse_checksummed data.address = some to_address →
      oracle.getBalance state.wallet_address = Except.ok sb →
      ¬ sb < state.tokens_per_request →
      oracle.getBalance to_address = Except.ok rb → ¬ 0 < rb →
      oracle.getTransactionCount state.wallet_address = Except.error e →
      (send_tokens state oracle parse_checksummed data).response =
        ⟨500, ResponseBody.error ("Failed to get nonce: " ++ e)⟩ ∧
      (send_tokens state oracle parse_checksummed data).submitted = []) ∧
    (∀ to_address sb rb nonce e, parse_checksummed data.address = some to_address →
      oracle.getBalance state.wallet_address = Except.ok sb →
      ¬ sb < state.tokens_per_request →
      oracle.getBalance to_address = Except.ok rb → ¬ 0 < rb →
      oracle.getTransactionCount state.wallet_address = Except.ok nonce →
      oracle.getChainId = Except.error e →
      (send_tokens state oracle parse_checksummed data).response =
        ⟨500, ResponseBody.error ("Failed to get chain ID: " ++ e)⟩ ∧
      (send_tokens state oracle parse_checksummed data).submitted = []) ∧
    (∀ to_address sb rb nonce chain_id e,
      parse_checksummed data.address = some to_address →
      oracle.getBalance state.wallet_address = Except.ok sb →
      ¬ sb < state.tokens_per_request →
      oracle.getBalance to_address = Except.ok rb → ¬ 0 < rb →
      oracle.getTransactionCount state.wallet_address = Except.ok nonce →
      oracle.getChainId = Except.ok chain_id →
      oracle.sign
        ⟨to_address, nonce, state.tokens_per_request, state.gas_limit,
         state.gas_price, state.gas_price, chain_id⟩ = Except.error e →
      (send_tokens state oracle parse_checksummed data).response =
        ⟨500, ResponseBody.error ("Failed to build transaction: " ++ e)⟩ ∧
      (send_tokens state oracle parse_checksummed data).submitted = []) ∧
    (∀ to_address sb rb nonce chain_id signature e,
      parse_checksummed data.address = some to_address →
      oracle.getBalance state.wallet_address = Except.ok sb →
      ¬ sb < state.tokens_per_request →
      oracle.getBalance to_address = Except.ok rb → ¬ 0 < rb →
      oracle.getTransactionCount state.wallet_address = Except.ok nonce →
      oracle.getChainId = Except.ok chain_id →
      oracle.sign
        ⟨to_address, nonce, state.tokens_per_request, state.gas_limit,
         state.gas_price, state.gas_price, chain_id⟩ = Except.ok signature →
      oracle.sendTxEnvelope
        ⟨⟨to_address, nonce, state.tokens_per_request, state.gas_limit,
          state.gas_price, state.gas_price, chain_id⟩, signature⟩ =
        Except.error e →
      (send_tokens state oracle parse_checksummed data).response =
        ⟨500, ResponseBody.error ("Failed to send transaction: " ++ e)⟩) ∧
    ((send_tokens state oracle parse_checksummed data).response.status = 400 →
      (send_tokens state oracle parse_checksummed data).response.body =
          ResponseBody.error "Invalid address" ∨
      (send_tokens state oracle parse_checksummed data).response.body =
          ResponseBody.error "Insufficient balance" ∨
      (send_tokens state oracle parse_checksummed data).response.body =
          ResponseBody.error "Receiver already has a balance greater than 0") := by
  refine ⟨?_, ?_, ?_, ?_, ?_, ?_, ?_⟩
  · intro to_address e hp hb
    simp only [send_tokens, hp, hb]
    constructor <;> trivial
  · intro to_address sb e hp hb hsuff hr
    simp only [send_tokens, hp, hb, hr]
    simp [hsuff, internalServerError]
  · intro to_address sb rb e hp hb hsuff hr hz hn
    simp only [send_tokens, hp, hb, hr, hn]
    simp [hsuff, hz, internalServerError]
  · intro to_address sb rb nonce e hp hb hsuff hr hz hn hc
    simp only [send_tokens, hp, hb, hr, hn, hc]
    simp [hsuff, hz, internalServerError]
  · intro to_address sb rb nonce chain_id e hp hb hsuff hr hz hn hc hs
    simp only [send_tokens, hp, hb, hr, hn, hc]
    simp [hsuff, hz, hs, internalServerError]
  · intro to_address sb rb nonce chain_id signature e hp hb hsuff hr hz hn hc hs hsend
    simp only [send_tokens, hp, hb, hr, hn, hc]
    simp [hsuff, hz, hs, hsend, internalServerError]
  · cases hp : parse_checksummed data.address with
    | none => simp [send_tokens, hp, badRequest]
    | some to_address =>
      cases hb : oracle.getBalance state.wallet_address with
      | error e => simp [send_tokens, hp, hb, internalServerError]
      | ok sb =>
        by_cases hlt : sb < state.tokens_per_request
        · simp [send_tokens, hp, hb, hlt, badRequest]
        · cases hr : oracle.getBalance to_address with
          | error e => simp [send_tokens, hp, hb, hlt, hr, internalServerError]
          | ok rb =>
            by_cases hz : rb > 0
            · simp [send_tokens, hp, hb, hlt, hr, hz, badRequest]
            · cases hn : oracle.getTransactionCount state.wallet_address with
              | error e =>
                simp [send_tokens, hp, hb, hlt, hr, hz, hn, internalServerError]
              | ok nonce =>
                cases hc : oracle.getChainId with
                | error e =>
                  simp [send_tokens, hp, hb, hlt, hr, hz, hn, hc, internalServerError]
                | ok chain_id =>
                  cases hs : oracle.sign
                      ⟨to_address, nonce, state.tokens_per_request, state.gas_limit,
                       state.gas_price, state.gas_price, chain_id⟩ with
                  | error e =>
                    simp [send_tokens, hp, hb, hlt, hr, hz, hn, hc, hs,
                      internalServerError]
                  | ok signature =>
                    cases hsend : oracle.sendTxEnvelope
                        ⟨⟨to_address, nonce, state.tokens_per_request, state.gas_limit,
                          state.gas_price, state.gas_price, chain_id⟩, signature⟩ with
                    | error e =>
                      simp [send_tokens, hp, hb, hlt, hr, hz, hn, hc, hs, hsend,
                        internalServerError]
                    | ok h =>
                      simp [send_tokens, hp, hb, hlt, hr, hz, hn, hc, hs, hsend,
                        okResponse]

/-- C5 witness: with the balance RPC failing, the handler answers 500 with
the remote text appended to the balance-failure prefix and submits nothing. -/
theorem send_tokens_error_taxonomy_witness :
    (send_tokens exState exOracleBalErr exParse ⟨"valid"⟩).response =
      ⟨500, ResponseBody.error ("Failed to get balance: " ++ "connection refused")⟩ ∧
    (send_tokens exState exOracleBalErr exParse ⟨"valid"⟩).submitted = [] :=
  (send_tokens_error_taxonomy exState exOracleBalErr exParse ⟨"valid"⟩).1 7
    "connection refused" (by decide) rfl

/-- C8 witness: with a URL parser that rejects the configured RPC URL,
startup ends in an error even though the private key is well-formed. -/
theorem runMain_fail_fast_witness :
    ∃ e, runMain exExternalsBadUrl exArgs = Except.error e :=
  runMain_fail_fast exExternalsBadUrl exArgs
    (Or.inr (Or.inr (Or.inr (Or.inl rfl))))

end Faucet
